import Mathlib

/-!
Verification of the pane dispatch-and-reactive-update core (`panel/pane.py`).

The Python module is shallowly embedded: the registry of concrete pane
classes, their `applies` predicates, `PaneBase.get_pane_type`,
`PaneBase.__init__`, the reactive `update_pane` closure of
`PaneBase._link_object`, the `_cleanup` chain, the HoloViews
`widgets_from_dimensions` synthesizer, and the `_imgshape` image-header
readers are all translated into executable Lean definitions.

Python runtime values are abstracted into a `Value` record of the exact
features the `applies` predicates test for (isinstance checks, `hasattr`
probes, string shape).  Python floats that the module uses (precedences,
the `0.1` slider-step fallback) are modelled as exact rationals, built
with `mkRat`.  Python exceptions are modelled with `Except`.
-/

deriving instance DecidableEq for Except

/-- Python exceptions raised (or modelled) by the module. -/
inductive Err where
  | typeError (msg : String)
  | valueError (msg : String)
  | attributeError (msg : String)
  | unboundLocalError (msg : String)
  | structError
  | renderError
  | timeout
deriving DecidableEq, Repr

/-- The concrete (non-`__abstract`) descendents of `PaneBase` defined in the
module.  `Image` declares no `__abstract` slot of its own, so
`param.concrete_descendents` includes it. -/
inductive PaneType where
  | Bokeh | HoloViews | Image | HTML | Str | PNG | GIF | JPG | SVG | YT | Matplotlib | RGGPlot
deriving DecidableEq, Repr, Fintype

/-- Class attribute `precedence`: 0.8 for `Bokeh` and `HoloViews`, 0.2 for
`HTML`, 0 for `Str`, the inherited `PaneBase` default 0.5 elsewhere. -/
def precedence : PaneType → ℚ
  | .Bokeh => mkRat 4 5
  | .HoloViews => mkRat 4 5
  | .HTML => mkRat 1 5
  | .Str => 0
  | _ => mkRat 1 2

/-- `type(self).__name__` for each pane class. -/
def paneName : PaneType → String
  | .Bokeh => "Bokeh"
  | .HoloViews => "HoloViews"
  | .Image => "Image"
  | .HTML => "HTML"
  | .Str => "Str"
  | .PNG => "PNG"
  | .GIF => "GIF"
  | .JPG => "JPG"
  | .SVG => "SVG"
  | .YT => "YT"
  | .Matplotlib => "Matplotlib"
  | .RGGPlot => "RGGPlot"

/-- The class attribute `imgtype` of the `Image` family. -/
def imgtype : PaneType → String
  | .PNG => "png"
  | .GIF => "gif"
  | .JPG => "jpg"
  | .SVG => "svg"
  | _ => "None"

/-- The class attribute `_updates` (true exactly for the `DivPaneBase`
family: `Image`, `HTML`, `Str` and their subclasses). -/
def pane_updates : PaneType → Bool
  | .Bokeh => false
  | .HoloViews => false
  | _ => true

/-- An arbitrary Python runtime value, abstracted to the features the
`applies` predicates of the module consult. -/
structure Value where
  /-- `isinstance(obj, Viewable)` (short-circuits `get_pane_type`). -/
  isViewable : Bool := false
  /-- `type(obj).__name__`. -/
  typeName : String := "object"
  /-- `isinstance(obj, LayoutDOM)`. -/
  isLayoutDOM : Bool := false
  /-- `'holoviews' in sys.modules`. -/
  holoviewsLoaded : Bool := false
  /-- `isinstance(obj, Dimensioned)` (meaningful when holoviews is loaded). -/
  isDimensioned : Bool := false
  /-- `'matplotlib' in sys.modules`. -/
  matplotlibLoaded : Bool := false
  /-- `isinstance(obj, matplotlib.figure.Figure)`. -/
  isMplFigure : Bool := false
  /-- `obj.canvas is not None` for a matplotlib figure. -/
  mplHasCanvas : Bool := true
  /-- `hasattr(obj, '_repr_png_')`. -/
  hasReprPng : Bool := false
  /-- `hasattr(obj, '_repr_gif_')`. -/
  hasReprGif : Bool := false
  /-- `hasattr(obj, '_repr_jpg_')`. -/
  hasReprJpg : Bool := false
  /-- `hasattr(obj, '_repr_svg_')`. -/
  hasReprSvg : Bool := false
  /-- `hasattr(obj, '_repr_None_')` (probed by the base `Image` class whose
  `imgtype` is the string `'None'`). -/
  hasReprNone : Bool := false
  /-- `hasattr(obj, '_repr_html_')`. -/
  hasReprHtml : Bool := false
  /-- `isinstance(obj, basestring)` (covers `unicode` as well). -/
  isString : Bool := false
  /-- The string contents when `isString` holds. -/
  strVal : String := ""
  /-- `os.path.isfile(obj)` for the string contents. -/
  isLocalFile : Bool := false
  /-- `'yt' in repr(obj)`. -/
  reprContainsYt : Bool := false
  /-- `hasattr(obj, 'plots')`. -/
  hasPlots : Bool := false
  /-- `hasattr(obj, 'r_repr')`. -/
  hasRRepr : Bool := false
deriving DecidableEq, Repr

/-- Python `str.startswith`. -/
def pyStartsWith (s p : String) : Bool := decide (s.toList.take p.toList.length = p.toList)

/-- Python `str.endswith`. -/
def pyEndsWith (s p : String) : Bool :=
  decide (p.toList.length ≤ s.toList.length) &&
  decide (s.toList.drop (s.toList.length - p.toList.length) = p.toList)

/-- Python `s[:-n]` (drop the last `n` characters, empty when `n ≥ len(s)`). -/
def pyDropLast (s : String) (n : Nat) : String := String.mk (s.toList.take (s.toList.length - n))

/-- Python `str.lstrip()` (restricted to ASCII whitespace). -/
def pyLStrip (s : String) : String :=
  String.mk (s.toList.dropWhile (fun c => c = ' ' ∨ c = '\t' ∨ c = '\n' ∨ c = '\r'))

/-- `hasattr(obj, '_repr_' + imgtype + '_')`. -/
def hasReprMethod (v : Value) : String → Bool
  | "png" => v.hasReprPng
  | "gif" => v.hasReprGif
  | "jpg" => v.hasReprJpg
  | "svg" => v.hasReprSvg
  | "None" => v.hasReprNone
  | _ => false

/-- `Image.applies`: a `_repr_X_` method, or a string naming a local file or
an HTTP(S) URL with the matching extension. -/
def imageApplies (t : String) (v : Value) : Bool :=
  hasReprMethod v t ||
  (v.isString &&
    ((v.isLocalFile && pyEndsWith v.strVal ("." ++ t)) ||
     ((pyStartsWith v.strVal "http://" || pyStartsWith v.strVal "https://") &&
      pyEndsWith v.strVal ("." ++ t))))

/-- The `applies` classmethod of each concrete pane class.  `Matplotlib.applies`
raises `ValueError` for a canvas-less figure, so the result is `Except`-valued. -/
def applies : PaneType → Value → Except Err Bool
  | .Bokeh, v => .ok v.isLayoutDOM
  | .HoloViews, v =>
      if v.holoviewsLoaded then .ok v.isDimensioned else .ok false
  | .Image, v => .ok (imageApplies "None" v)
  | .PNG, v => .ok (imageApplies "png" v)
  | .GIF, v => .ok (imageApplies "gif" v)
  | .JPG, v => .ok (imageApplies "jpg" v)
  | .SVG, v =>
      .ok (imageApplies "svg" v || (v.isString && pyStartsWith (pyLStrip v.strVal) "<svg"))
  | .Matplotlib, v =>
      if v.matplotlibLoaded then
        if v.isMplFigure && !v.mplHasCanvas then
          .error (.valueError "Matplotlib figure has no canvas and cannot be rendered.")
        else .ok v.isMplFigure
      else .ok false
  | .RGGPlot, v => .ok (decide (v.typeName = "GGPlot") && v.hasRRepr)
  | .HTML, v => .ok (v.hasReprHtml || v.isString)
  | .Str, _ => .ok true
  | .YT, v => .ok (v.reprContainsYt && v.hasPlots && v.hasReprHtml)

/-- `param.concrete_descendents(PaneBase).values()` in registration
(breadth-first subclass discovery) order. -/
def descendents_list : List PaneType :=
  [.Bokeh, .HoloViews, .Image, .HTML, .Str, .PNG, .GIF, .JPG, .SVG, .YT, .Matplotlib, .RGGPlot]

/-- `reversed(sorted(descendents, key=lambda x: x[0]))`: a stable ascending
sort by precedence, then reversed, which also reverses the order of
equal-precedence entries. -/
def sorted_pane_types : List PaneType :=
  (List.insertionSort (fun a b => precedence a ≤ precedence b) descendents_list).reverse

/-- The scan loop of `get_pane_type` (lines 78-81): return the first pane
type whose `applies` accepts the object, propagate an exception raised by an
`applies` call, and raise `TypeError('%s type could not be rendered.')` when
the candidate list is exhausted. -/
def firstApplies (l : List PaneType) (v : Value) : Except Err PaneType :=
  match l with
  | [] => .error (.typeError (v.typeName ++ " type could not be rendered."))
  | t :: ts =>
      match applies t v with
      | .error e => .error e
      | .ok true => .ok t
      | .ok false => firstApplies ts v

/-- The result of `PaneBase.get_pane_type`: either `type(obj)` for a value
that is already a `Viewable`, or a registered pane class. -/
inductive Resolved where
  | selfType
  | paneType (t : PaneType)
deriving DecidableEq, Repr

/-- `PaneBase.get_pane_type`. -/
def get_pane_type (v : Value) : Except Err Resolved :=
  if v.isViewable then .ok .selfType
  else (firstApplies sorted_pane_types v).map Resolved.paneType

/-- A constructed pane instance: the selected pane class and the wrapped
object. -/
structure Wrapper where
  ptype : PaneType
  object : Value
deriving DecidableEq, Repr

/-- `PaneBase.__init__`: rejects an object the class does not apply to with
`ValueError('%s object not understood by %s, expected %s object.')`. -/
def PaneBase_init (T : PaneType) (v : Value) : Except Err Wrapper :=
  match applies T v with
  | .error e => .error e
  | .ok true => .ok ⟨T, v⟩
  | .ok false =>
      .error (.valueError (v.typeName ++ " object not understood by " ++ paneName T ++
        ", expected " ++ pyDropLast (paneName T) 5 ++ " object."))

example : sorted_pane_types =
    [.HoloViews, .Bokeh, .RGGPlot, .Matplotlib, .YT, .SVG, .JPG, .GIF, .PNG, .Image, .HTML, .Str] := by
  decide

example : get_pane_type { hasReprPng := true } = .ok (.paneType .PNG) := by decide

example : get_pane_type { hasReprPng := true, hasReprGif := true } = .ok (.paneType .GIF) := by
  decide

example : get_pane_type {} = .ok (.paneType .Str) := by decide

example : get_pane_type { matplotlibLoaded := true, isMplFigure := true, mplHasCanvas := false } =
    .error (.valueError "Matplotlib figure has no canvas and cannot be rendered.") := by decide

example : PaneBase_init .Bokeh {} =
    .error (.valueError "object object not understood by Bokeh, expected  object.") := by decide

/-- A Bokeh model in the document tree: an identity (`ref['id']`) plus the
rendered content it currently displays. -/
structure Node where
  id : Nat
  val : Nat
deriving DecidableEq, Repr

/-- The mutable state visible to the `update_pane` closure of
`PaneBase._link_object`: the parent's child list, the tracked current model
(`history[0]`), the ids passed to `_cleanup` so far, and a supply of fresh
model identities for `_get_model`. -/
structure LinkState where
  children : List Node
  history : Node
  cleaned : List Nat
  nextId : Nat
deriving DecidableEq, Repr

/-- A callback handed to `doc.add_next_tick_callback` (the two possible
`update_models` closures). -/
inductive Deferred where
  | applyUpdate (objVal : Nat)
  | splice (newModel : Node)
deriving DecidableEq, Repr

/-- What one invocation of `update_pane` does: the exception (if any) that
propagates to the caller that reassigned `object`, the state as left behind,
and the callbacks queued for the next document tick. -/
structure UpdateOutcome where
  raised : Option Err
  state : LinkState
  deferred : List Deferred
deriving DecidableEq, Repr

/-- `self._update(old_model)` for an `_updates` pane (`DivPaneBase._update`
updates the existing Div in place): the model keeps its identity, its
content becomes the current object; every reference to it in the tree sees
the mutation. -/
def applyUpdate (objVal : Nat) (st : LinkState) : LinkState :=
  let updated : Node := { st.history with val := objVal }
  { st with
      children := st.children.map (fun n => if n = st.history then updated else n),
      history := updated }

/-- The `update_models` closure of the replacement path:
`index = parent.children.index(old_model); parent.children[index] = new_model;
history[0] = new_model`.  `list.index` raises `ValueError` when the old model
is no longer a child. -/
def update_models_splice (newModel : Node) (st : LinkState) : Except Err LinkState :=
  match st.children.findIdx? (fun n => decide (n = st.history)) with
  | some i => .ok { st with children := st.children.set i newModel, history := newModel }
  | none => .error (.valueError "x not in list")

/-- The body of the `update_pane` watcher in `PaneBase._link_object`.
`updates` is the pane's `_updates` flag and `comm` whether a live session is
attached; `updRaises`, `cleanupRaises`, `getRaises` model whether the
overridden `_update`, `_cleanup`, `_get_model` raise on this invocation. -/
def update_pane (updates comm updRaises cleanupRaises getRaises : Bool)
    (objVal : Nat) (st : LinkState) : UpdateOutcome :=
  if updates then
    if comm then
      if updRaises then ⟨some .renderError, st, []⟩
      else ⟨none, applyUpdate objVal st, []⟩
    else ⟨none, st, [.applyUpdate objVal]⟩
  else
    if cleanupRaises then ⟨some .renderError, st, []⟩
    else
      let st1 := { st with cleaned := st.cleaned ++ [st.history.id] }
      if getRaises then ⟨some .renderError, st1, []⟩
      else
        let newModel : Node := ⟨st1.nextId, objVal⟩
        let st2 := { st1 with nextId := st1.nextId + 1 }
        if comm then
          match update_models_splice newModel st2 with
          | .ok st3 => ⟨none, st3, []⟩
          | .error e => ⟨some e, st2, []⟩
        else ⟨none, st2, [.splice newModel]⟩

/-- Running one queued callback on the next document tick. -/
def run_next_tick (updRaises : Bool) (cb : Deferred) (st : LinkState) : Except Err LinkState :=
  match cb with
  | .applyUpdate objVal => if updRaises then .error .renderError else .ok (applyUpdate objVal st)
  | .splice newModel => update_models_splice newModel st

/-- The net effect of a reassignment of `object`: the synchronous watcher
call followed by the queued tick callbacks. -/
def reassign (updates comm updRaises cleanupRaises getRaises : Bool)
    (objVal : Nat) (st : LinkState) : Except Err LinkState :=
  let out := update_pane updates comm updRaises cleanupRaises getRaises objVal st
  match out.raised with
  | some e => .error e
  | none => out.deferred.foldlM (fun s cb => run_next_tick updRaises cb s) out.state

/-- State of a pane instance relevant to `_cleanup`: the held object (an
opaque token, `none` models Python `None`) and the registered callbacks. -/
structure PaneState where
  object : Option Nat
  callbacks : List Nat
deriving DecidableEq, Repr

/-- Modelled from the spec: `Reactive._cleanup` lives in `viewable.py`, which
is not part of the sources; per the spec, resource release detaches the
wrapper's change-subscriptions and "must not itself raise for
already-detached state". -/
def Reactive_cleanup (st : PaneState) (_final : Bool) : PaneState :=
  { st with callbacks := [] }

/-- `PaneBase._cleanup`: delegate to the superclass, then on a final teardown
clear the held object (`self.object = None`). -/
def PaneBase_cleanup (st : PaneState) (final : Bool) : PaneState :=
  let st1 := Reactive_cleanup st final
  if final then { st1 with object := none } else st1

/-- `HoloViews._cleanup`: first traverses `self.object`
(`self.object.traverse(lambda x: x, [DynamicMap])`) to disconnect stream
subscribers, then delegates to `PaneBase._cleanup`.  When the held object is
Python `None` the attribute access on it raises `AttributeError`.  The
stream disconnection itself only touches external plot state and is
modelled as a no-op on the pane. -/
def HoloViews_cleanup (st : PaneState) (final : Bool) : Except Err PaneState :=
  match st.object with
  | none => .error (.attributeError "NoneType object has no attribute traverse")
  | some _ => .ok (PaneBase_cleanup st final)

example :
    update_pane true false true false false 99 ⟨[⟨1, 10⟩], ⟨1, 10⟩, [], 2⟩ =
      ⟨none, ⟨[⟨1, 10⟩], ⟨1, 10⟩, [], 2⟩, [.applyUpdate 99]⟩ := by decide

example :
    reassign false true false false false 99 ⟨[⟨1, 10⟩], ⟨1, 10⟩, [], 2⟩ =
      .ok ⟨[⟨2, 99⟩], ⟨2, 99⟩, [1], 3⟩ := by decide

example :
    reassign false false false false false 99 ⟨[⟨1, 10⟩], ⟨1, 10⟩, [], 2⟩ =
      .ok ⟨[⟨2, 99⟩], ⟨2, 99⟩, [1], 3⟩ := by decide

example : HoloViews_cleanup ⟨some 7, [3]⟩ true = .ok ⟨none, []⟩ := by decide

example : HoloViews_cleanup ⟨none, []⟩ true =
    .error (.attributeError "NoneType object has no attribute traverse") := by decide

/-- A dimension value: holoviews dimension values are numbers or strings. -/
inductive DimVal where
  | num (q : ℚ)
  | str (s : String)
deriving DecidableEq, Repr

/-- `isnumeric(v)`. -/
def DimVal.isNum : DimVal → Bool
  | .num _ => true
  | .str _ => false

/-- The numeric content (only consulted for numeric values). -/
def DimVal.toRat : DimVal → ℚ
  | .num q => q
  | .str _ => 0

/-- Modelled from the spec: `dim.pprint_value` is the external value
formatter of holoviews (an external collaborator here); the synthesizer only
uses it to label slider steps. -/
def pprint_value : DimVal → String
  | .num q => toString q.num
  | .str s => s

/-- A holoviews `Dimension` as `widgets_from_dimensions` consumes it:
name, label, declared value list, declared range, declared default and step. -/
structure Dim where
  name : String
  label : String
  values : List DimVal := []
  range : Option ℚ × Option ℚ := (none, none)
  default : Option DimVal := none
  step : Option ℚ := none
deriving DecidableEq, Repr

/-- `Dimension('Frame')`. -/
def frameDim : Dim := { name := "Frame", label := "Frame" }

/-- The widget classes the synthesizer instantiates. -/
inductive WidgetType where
  | DiscreteSlider | Select | FloatSlider
deriving DecidableEq, Repr

/-- The `options` argument: an `OrderedDict` of label/value pairs (numeric
branch) or a plain list (categorical branch). -/
inductive WOptions where
  | dict (entries : List (String × DimVal))
  | list (entries : List DimVal)
deriving DecidableEq, Repr

/-- A synthesized (or explicitly supplied) widget: constructor plus the
keyword arguments `widgets_from_dimensions` passes. -/
structure Widget where
  wtype : WidgetType
  name : String
  options : Option WOptions := none
  start : Option ℚ := none
  stop : Option ℚ := none
  step : Option ℚ := none
  value : Option DimVal := none
deriving DecidableEq, Repr

/-- A value of the `widgets` override mapping: a widget instance, a widget
type, or anything else (which the source rejects with `ValueError`). -/
inductive Override where
  | inst (w : Widget)
  | wtype (t : WidgetType)
  | other
deriving DecidableEq, Repr

/-- Python `zip(*keys)`: transpose the key tuples, truncating at the
shortest row. -/
def pyZipStar (rows : List (List DimVal)) : List (List DimVal) :=
  match rows with
  | [] => []
  | r :: rs =>
      let n := rs.foldl (fun m l => min m l.length) r.length
      (List.range n).map (fun i => (r :: rs).map (fun l => l.getD i (.num 0)))

/-- `dict(zip(dims, zip(*keys)))[dim]`: Python dict lookup (a later duplicate
key wins). -/
def dimLookup (table : List (Dim × List DimVal)) (d : Dim) : Option (List DimVal) :=
  (table.reverse.find? (fun p => decide (p.1 = d))).map Prod.snd

/-- `widget_types[dim.name]` when present. -/
def overrideLookup (wtypes : List (String × Override)) (name : String) : Option Override :=
  (wtypes.reverse.find? (fun p => decide (p.1 = name))).map Prod.snd

/-- Python `sorted` on an all-numeric value list (stable ascending). -/
def sortVals (vals : List DimVal) : List DimVal :=
  List.insertionSort (fun a b => a.toRat ≤ b.toRat) vals

/-- The `if vals:` branch: numeric values are sorted and labelled into an
ordered dict for a `DiscreteSlider`, other values become a `Select` over the
list; the default is the (post-sort) first value unless the dimension
declares one. -/
def discreteWidget (d : Dim) (vals : List DimVal) (widget_type : Option WidgetType) : Widget :=
  if vals.all DimVal.isNum then
    let sorted := sortVals vals
    let labels := sorted.map pprint_value
    let options := WOptions.dict (labels.zip sorted)
    let default := match d.default with
      | none => sorted.headD (.num 0)
      | some dv => dv
    { wtype := widget_type.getD .DiscreteSlider, name := d.label,
      options := some options, value := some default }
  else
    let options := WOptions.list vals
    let default := match d.default with
      | none => vals.headD (.num 0)
      | some dv => dv
    { wtype := widget_type.getD .Select, name := d.label,
      options := some options, value := some default }

/-- The `elif dim.range != (None, None):` branch: a `FloatSlider` over the
declared range, step falling back to 0.1, default falling back to the lower
bound (which may itself be Python `None` for a half-open range). -/
def rangeWidget (d : Dim) (widget_type : Option WidgetType) : Widget :=
  let default : Option DimVal := match d.default with
    | some dv => some dv
    | none => d.range.1.map DimVal.num
  let step := d.step.getD (mkRat 1 10)
  { wtype := widget_type.getD .FloatSlider, name := d.label,
    start := d.range.1, stop := d.range.2, step := some step, value := default }

/-- One `for dim in dims:` iteration past the override handling.  `last` is
the Python local variable `widget` as left by the previous iteration: the
source's `widgets.append(widget)` sits at loop-body level, so when neither
branch assigned `widget` the previous iteration's widget is appended again,
and on the first iteration the name is unbound (`UnboundLocalError`). -/
def dimWidget (d : Dim) (vals : List DimVal) (widget_type : Option WidgetType)
    (last : Option Widget) : Except Err Widget :=
  if vals ≠ [] then .ok (discreteWidget d vals widget_type)
  else if d.range ≠ (none, none) then .ok (rangeWidget d widget_type)
  else
    match last with
    | some w => .ok w
    | none => .error (.unboundLocalError "local variable widget referenced before assignment")

/-- The `for dim in dims:` loop of `widgets_from_dimensions`. -/
def widgetsLoop (table : List (Dim × List DimVal)) (wtypes : List (String × Override)) :
    List Dim → Option Widget → Except Err (List Widget)
  | [], _ => .ok []
  | d :: ds, last =>
      let vals := if d.values.isEmpty then (dimLookup table d).getD [] else d.values
      match overrideLookup wtypes d.name with
      | some (.inst w) => (w :: ·) <$> widgetsLoop table wtypes ds (some w)
      | some .other =>
          .error (.valueError ("Explicit widget definitions expected to be a widget instance or type, "
            ++ d.name ++ " dimension widget declared as other."))
      | some (.wtype t) => do
          let w ← dimWidget d vals (some t) last
          (w :: ·) <$> widgetsLoop table wtypes ds (some w)
      | none => do
          let w ← dimWidget d vals none last
          (w :: ·) <$> widgetsLoop table wtypes ds (some w)

/-- `HoloViews.widgets_from_dimensions`, taking the `(dims, keys)` pair that
the external `holoviews.core.traversal.unique_dimkeys` returns for the
wrapped object. -/
def widgets_from_dimensions (dims : List Dim) (keys : List (List DimVal))
    (widget_types : List (String × Override)) : Except Err (List Widget) :=
  if dims = [frameDim] ∧ keys = [[DimVal.num 0]] then .ok []
  else widgetsLoop (dims.zip (pyZipStar keys)) widget_types dims none

def colorDim : Dim :=
  { name := "color", label := "color", values := [.str "red", .str "green", .str "blue"] }

def levelDim : Dim :=
  { name := "level", label := "level", range := (some 0, some 10), default := some (.num 4),
    step := some 2 }

example : widgets_from_dimensions [colorDim, levelDim] [] [] =
    .ok [{ wtype := .Select, name := "color",
           options := some (.list [.str "red", .str "green", .str "blue"]),
           value := some (.str "red") },
         { wtype := .FloatSlider, name := "level", start := some 0, stop := some 10,
           step := some 2, value := some (.num 4) }] := by decide

def phaseDim : Dim := { name := "phase", label := "phase" }

example : widgets_from_dimensions [colorDim, phaseDim] [] [] =
    .ok [{ wtype := .Select, name := "color",
           options := some (.list [.str "red", .str "green", .str "blue"]),
           value := some (.str "red") },
         { wtype := .Select, name := "color",
           options := some (.list [.str "red", .str "green", .str "blue"]),
           value := some (.str "red") }] := by decide

example : widgets_from_dimensions [phaseDim] [] [] =
    .error (.unboundLocalError "local variable widget referenced before assignment") := by decide

example : widgets_from_dimensions [frameDim] [[.num 0]] [] = .ok [] := by decide

/-- `struct.unpack('>H', two bytes)`: big-endian 16-bit read, `struct.error`
when fewer than two bytes are available. -/
def unpack_be16 (l : List Nat) : Except Err Nat :=
  match l with
  | [a, b] => .ok (a * 256 + b)
  | _ => .error .structError

/-- `PNG._imgshape`: `struct.unpack('>LL', data[16:24])`, returning
`(width, height)`. -/
def png_imgshape (data : List Nat) : Except Err (Nat × Nat) :=
  match (data.drop 16).take 8 with
  | [w1, w2, w3, w4, h1, h2, h3, h4] =>
      .ok (((w1 * 256 + w2) * 256 + w3) * 256 + w4, ((h1 * 256 + h2) * 256 + h3) * 256 + h4)
  | _ => .error .structError

/-- `GIF._imgshape`: `struct.unpack("<HH", data[6:10])`, returning
`(width, height)` little-endian. -/
def gif_imgshape (data : List Nat) : Except Err (Nat × Nat) :=
  match (data.drop 6).take 4 with
  | [w1, w2, h1, h2] => .ok (w1 + w2 * 256, h1 + h2 * 256)
  | _ => .error .structError

/-- Python `ord(c)` on the result of a 1-byte read: `TypeError` at EOF. -/
def pyOrd (c : List Nat) : Except Err Nat :=
  match c with
  | [] => .error (.typeError "ord() expected a character, but string of length 0 found")
  | b :: _ => .ok b

/-- `while (ord(c) != 0xFF): c = b.read(1)` over the remaining bytes.  The
fuel argument only bounds the recursion; every iteration consumes a byte, so
any fuel above the stream length is enough. -/
def jpgSkipToFF : Nat → List Nat → List Nat → Except Err (List Nat × List Nat)
  | 0, _, _ => .error .timeout
  | fuel + 1, c, rest => do
      let b ← pyOrd c
      if b ≠ 0xFF then jpgSkipToFF fuel (rest.take 1) (rest.drop 1)
      else .ok (c, rest)

/-- `while (ord(c) == 0xFF): c = b.read(1)`. -/
def jpgSkipFFRun : Nat → List Nat → List Nat → Except Err (List Nat × List Nat)
  | 0, _, _ => .error .timeout
  | fuel + 1, c, rest => do
      let b ← pyOrd c
      if b = 0xFF then jpgSkipFFRun fuel (rest.take 1) (rest.drop 1)
      else .ok (c, rest)

/-- The marker-scanning loop of `JPG._imgshape`: skip to the next marker;
an SOF marker (0xC0-0xC3) yields `(width, height)` from the 4 bytes after
the 3-byte length/precision, any other marker's segment is skipped by its
declared length (a declared length below 2 makes `b.read` consume to EOF),
and reaching SOS (0xDA) or EOF leaves `w`, `h` unbound
(`UnboundLocalError` at the `return`). -/
def jpgScan : Nat → List Nat → List Nat → Except Err (Nat × Nat)
  | 0, _, _ => .error .timeout
  | fuel + 1, c, rest =>
      if c = [] then .error (.unboundLocalError "local variable w referenced before assignment")
      else do
        let b ← pyOrd c
        if b = 0xDA then
          .error (.unboundLocalError "local variable w referenced before assignment")
        else do
          let (c1, rest1) ← jpgSkipToFF fuel c rest
          let (c2, rest2) ← jpgSkipFFRun fuel c1 rest1
          let m ← pyOrd c2
          if 0xC0 ≤ m ∧ m ≤ 0xC3 then
            match (rest2.drop 3).take 4 with
            | [h1, h2, w1, w2] => .ok (w1 * 256 + w2, h1 * 256 + h2)
            | _ => .error .structError
          else do
            let len ← unpack_be16 (rest2.take 2)
            let rest3 := if len < 2 then [] else (rest2.drop 2).drop (len - 2)
            jpgScan fuel (rest3.take 1) (rest3.drop 1)

/-- `JPG._imgshape`: skip the 2-byte SOI, read one byte and scan the marker
segments. -/
def jpg_imgshape (data : List Nat) : Except Err (Nat × Nat) :=
  jpgScan (data.length + 4) ((data.drop 2).take 1) (data.drop 3)

/-- A minimal JPEG fixture: SOI, then an SOF0 segment declaring
height 50 and width 100. -/
def jpgFixture : List Nat :=
  [0xFF, 0xD8, 0xFF, 0xC0, 0x00, 0x11, 0x08, 0x00, 0x32, 0x00, 0x64]

example : jpg_imgshape jpgFixture = .ok (100, 50) := by decide

example : png_imgshape (List.replicate 16 0 ++ [0, 0, 0, 100, 0, 0, 0, 50]) = .ok (100, 50) := by
  decide

example : gif_imgshape (List.replicate 6 0 ++ [100, 0, 50, 0]) = .ok (100, 50) := by decide

example : jpg_imgshape
    [0xFF, 0xD8, 0xFF, 0xE0, 0x00, 0x04, 0x00, 0x00, 0xFF, 0xC2, 0x00, 0x11, 0x08, 0x01, 0x00,
     0x02, 0x00] = .ok (512, 256) := by decide

theorem firstApplies_append (v : Value) (pre suf : List PaneType) (T : PaneType)
    (hpre : ∀ t ∈ pre, applies t v = .ok false) (hT : applies T v = .ok true) :
    firstApplies (pre ++ T :: suf) v = .ok T := by
  induction pre with
  | nil => simp [firstApplies, hT]
  | cons a as ih =>
      have ha := hpre a (List.mem_cons_self a as)
      simp only [List.cons_append, firstApplies, ha]
      exact ih (fun t ht => hpre t (List.mem_cons_of_mem a ht))

theorem firstApplies_of_sorted (v : Value) (l : List PaneType) (T : PaneType)
    (hmem : T ∈ l) (hsorted : l.Pairwise (fun a b => precedence b ≤ precedence a))
    (hT : applies T v = .ok true)
    (H : ∀ t : PaneType, precedence T ≤ precedence t → t = T ∨ applies t v = .ok false) :
    firstApplies l v = .ok T := by
  induction l with
  | nil => cases hmem
  | cons a as ih =>
      rcases List.pairwise_cons.mp hsorted with ⟨ha, htail⟩
      by_cases hEq : a = T
      · subst hEq
        simp [firstApplies, hT]
      · have hmem2 : T ∈ as := by
          cases hmem with
          | head => exact absurd rfl hEq
          | tail _ h => exact h
        have hprec : precedence T ≤ precedence a := ha T hmem2
        have hfalse : applies a v = .ok false := (H a hprec).resolve_left hEq
        simp only [firstApplies, hfalse]
        exact ih hmem2 htail

theorem firstApplies_total (v : Value) (l : List PaneType)
    (hok : ∀ t ∈ l, ∃ b, applies t v = .ok b)
    (hacc : ∃ t ∈ l, applies t v = .ok true) :
    ∃ T, firstApplies l v = .ok T := by
  induction l with
  | nil =>
      rcases hacc with ⟨t, ht, -⟩
      cases ht
  | cons a as ih =>
      rcases hok a (List.mem_cons_self a as) with ⟨b, hb⟩
      cases b with
      | true => exact ⟨a, by simp [firstApplies, hb]⟩
      | false =>
          simp only [firstApplies, hb]
          apply ih (fun t ht => hok t (List.mem_cons_of_mem a ht))
          rcases hacc with ⟨t, ht, htrue⟩
          cases ht with
          | head =>
              rw [hb] at htrue
              simp at htrue
          | tail _ h => exact ⟨t, h, htrue⟩

theorem applies_no_typeError (t : PaneType) (v : Value) (m : String) :
    applies t v ≠ .error (.typeError m) := by
  cases t <;> simp only [applies] <;> first
  | (split_ifs <;> simp)
  | simp

theorem firstApplies_not_typeError (v : Value) (l : List PaneType)
    (hacc : ∃ t ∈ l, applies t v = .ok true) (m : String) :
    firstApplies l v ≠ .error (.typeError m) := by
  induction l with
  | nil =>
      rcases hacc with ⟨t, ht, -⟩
      cases ht
  | cons a as ih =>
      cases hb : applies a v with
      | error e =>
          simp only [firstApplies, hb]
          intro hcontra
          apply applies_no_typeError a v m
          rw [hb]
          exact congrArg Except.error (Except.error.inj hcontra)
      | ok b =>
          cases b with
          | true => simp [firstApplies, hb]
          | false =>
              simp only [firstApplies, hb]
              apply ih
              rcases hacc with ⟨t, ht, htrue⟩
              cases ht with
              | head =>
                  rw [hb] at htrue
                  simp at htrue
              | tail _ h => exact ⟨t, h, htrue⟩


/-- A value whose Python object exposes both a `_repr_png_` and a
`_repr_gif_` method: `PNG.applies` and `GIF.applies` both accept it, at
equal precedence 0.5. -/
def vDualRepr : Value := { hasReprPng := true, hasReprGif := true }

/-- C1 counterexample: `PNG` accepts `vDualRepr` and no registered type of
strictly higher precedence accepts it, yet `get_pane_type` selects `GIF`
(the equal-precedence tie goes to whichever candidate the reversed stable
sort iterates first), so resolution does not select `T = PNG` as the claim
states. -/
theorem get_pane_type_tie_counterexample :
    vDualRepr.isViewable = false ∧
    applies .PNG vDualRepr = .ok true ∧
    (∀ t : PaneType, precedence .PNG < precedence t → applies t vDualRepr = .ok false) ∧
    get_pane_type vDualRepr ≠ .ok (.paneType .PNG) ∧
    get_pane_type vDualRepr = .ok (.paneType .GIF) := by decide

/-- C1 (amended): if `T.applies(v)` accepts `v` and every *other* registered
type of higher or equal precedence rejects `v` (so `T` is the unique
accepting candidate at the top of the ranking), then `get_pane_type`
selects `T`: candidates are ranked by numeric precedence descending and the
first whose `applies` predicate accepts the value wins. -/
theorem get_pane_type_selects_unique_max (v : Value) (T : PaneType)
    (hv : v.isViewable = false) (hT : applies T v = .ok true)
    (H : ∀ t : PaneType, precedence T ≤ precedence t → t = T ∨ applies t v = .ok false) :
    get_pane_type v = .ok (.paneType T) := by
  have hall : ∀ t : PaneType, t ∈ sorted_pane_types := by decide
  have hsorted : sorted_pane_types.Pairwise (fun a b => precedence b ≤ precedence a) := by decide
  have hfa := firstApplies_of_sorted v sorted_pane_types T (hall T) hsorted hT H
  simp [get_pane_type, hv, hfa, Except.map]

/-- Witness for the amended C1: an object with only a `_repr_png_` method
resolves to the `PNG` pane. -/
theorem get_pane_type_selects_unique_max_witness :
    get_pane_type { hasReprPng := true } = .ok (.paneType .PNG) :=
  get_pane_type_selects_unique_max { hasReprPng := true } .PNG rfl (by decide) (by decide)

/-- C4: when every candidate's `applies` rejects the value, the resolution
loop raises `TypeError('%s type could not be rendered.')`, the error
dedicated to the no-registered-wrapper-accepts case. -/
theorem firstApplies_no_match (l : List PaneType) (v : Value)
    (h : ∀ t ∈ l, applies t v = .ok false) :
    firstApplies l v = .error (.typeError (v.typeName ++ " type could not be rendered.")) := by
  induction l with
  | nil => rfl
  | cons a as ih =>
      have ha := h a (List.mem_cons_self a as)
      simp only [firstApplies, ha]
      exact ih (fun t ht => h t (List.mem_cons_of_mem a ht))

/-- Witness for C4: a plain object offered only to the `Bokeh` and `HTML`
candidates is rejected by both and resolution fails with the dedicated
error. -/
theorem firstApplies_no_match_witness :
    firstApplies [.Bokeh, .HTML] {} =
      .error (.typeError ("object" ++ " type could not be rendered.")) :=
  firstApplies_no_match [.Bokeh, .HTML] {} (by decide)

/-- A matplotlib figure whose canvas is `None`: `Matplotlib.applies` raises
`ValueError` instead of returning a boolean. -/
def vMplNoCanvas : Value :=
  { matplotlibLoaded := true, isMplFigure := true, mplHasCanvas := false }

/-- C5 counterexample: for a canvas-less matplotlib figure the resolution
loop does not select any type — `Matplotlib.applies` raises before the scan
reaches the catch-all `Str` — so resolution does not always succeed. -/
theorem resolution_raises_counterexample :
    vMplNoCanvas.isViewable = false ∧
    get_pane_type vMplNoCanvas =
      .error (.valueError "Matplotlib figure has no canvas and cannot be rendered.") ∧
    (∀ T : PaneType, get_pane_type vMplNoCanvas ≠ .ok (.paneType T)) := by decide

/-- C5 (amended): `Str.applies` accepts every value and `Str` carries the
lowest precedence (0); for every non-Viewable value on which no candidate's
`applies` raises, the resolution loop selects some type; and the
no-match failure branch (`TypeError('... could not be rendered.')`) is
unreachable for every input. -/
theorem str_catch_all :
    (∀ v : Value, applies .Str v = .ok true) ∧
    (precedence .Str = 0 ∧ (∀ t : PaneType, precedence .Str ≤ precedence t)) ∧
    (∀ v : Value, v.isViewable = false → (∀ t : PaneType, ∃ b, applies t v = .ok b) →
       ∃ T, get_pane_type v = .ok (.paneType T)) ∧
    (∀ (v : Value) (m : String), get_pane_type v ≠ .error (.typeError m)) := by
  refine ⟨fun v => rfl, ⟨rfl, by decide⟩, ?_, ?_⟩
  · intro v hv hok
    have hacc : ∃ t ∈ sorted_pane_types, applies t v = .ok true := ⟨.Str, by decide, rfl⟩
    obtain ⟨T, hT⟩ := firstApplies_total v sorted_pane_types (fun t _ => hok t) hacc
    exact ⟨T, by simp [get_pane_type, hv, hT, Except.map]⟩
  · intro v m hcontra
    by_cases hv : v.isViewable
    · simp [get_pane_type, hv] at hcontra
    · have hacc : ∃ t ∈ sorted_pane_types, applies t v = .ok true := ⟨.Str, by decide, rfl⟩
      apply firstApplies_not_typeError v sorted_pane_types hacc m
      simp only [get_pane_type, hv, if_false, Bool.false_eq_true] at hcontra
      cases hfa : firstApplies sorted_pane_types v with
      | ok t =>
          rw [hfa] at hcontra
          simp [Except.map] at hcontra
      | error e =>
          rw [hfa] at hcontra
          simp only [Except.map] at hcontra
          exact congrArg Except.error (Except.error.inj hcontra)

/-- Witness for the amended C5: a featureless object resolves successfully
(in fact to `Str`). -/
theorem str_catch_all_witness : ∃ T, get_pane_type {} = .ok (.paneType T) :=
  str_catch_all.2.2.1 {} rfl (by decide)

/-- C9: constructing a pane on a value its own `applies` rejects fails with
`ValueError('%s object not understood by %s, expected %s object.')` — an
error naming the actual kind of the value and the pane class — and no
wrapper instance holding the value is produced. -/
theorem pane_init_type_mismatch (T : PaneType) (v : Value)
    (h : applies T v = .ok false) :
    PaneBase_init T v =
      .error (.valueError (v.typeName ++ " object not understood by " ++ paneName T ++
        ", expected " ++ pyDropLast (paneName T) 5 ++ " object.")) ∧
    ∀ w : Wrapper, PaneBase_init T v ≠ .ok w := by
  have hmain : PaneBase_init T v =
      .error (.valueError (v.typeName ++ " object not understood by " ++ paneName T ++
        ", expected " ++ pyDropLast (paneName T) 5 ++ " object.")) := by
    simp [PaneBase_init, h]
  refine ⟨hmain, fun w hc => ?_⟩
  rw [hmain] at hc
  cases hc

/-- Witness for C9: a plain object handed to the `Bokeh` pane constructor. -/
theorem pane_init_type_mismatch_witness :
    PaneBase_init .Bokeh {} =
      .error (.valueError (Value.typeName {} ++ " object not understood by " ++ paneName .Bokeh ++
        ", expected " ++ pyDropLast (paneName .Bokeh) 5 ++ " object.")) ∧
    ∀ w : Wrapper, PaneBase_init .Bokeh {} ≠ .ok w :=
  pane_init_type_mismatch .Bokeh {} rfl

/-- C2: net effect of reassigning `object` once the binding is attached.
For an `_updates` pane the existing model keeps its identity and is mutated
by `_update` to the new content; otherwise the old model is passed to
`_cleanup` exactly once, a fresh model (a new identity) is produced, and it
replaces the old model at the position it occupied in `parent.children`. -/
theorem reassign_update_vs_replace (comm : Bool) (objVal : Nat) (st : LinkState) (i : Nat)
    (hidx : st.children.findIdx? (fun n => decide (n = st.history)) = some i)
    (hfresh : ∀ n ∈ st.children, n.id ≠ st.nextId) :
    (∃ st2, reassign true comm false false false objVal st = .ok st2 ∧
       st2.children.map Node.id = st.children.map Node.id ∧
       st2.history.id = st.history.id ∧ st2.history.val = objVal ∧
       st2.cleaned = st.cleaned) ∧
    (∃ st2, reassign false comm false false false objVal st = .ok st2 ∧
       st2.cleaned = st.cleaned ++ [st.history.id] ∧
       st2.history = ⟨st.nextId, objVal⟩ ∧
       (st.history ∈ st.children → st2.history.id ≠ st.history.id) ∧
       st2.children = st.children.set i ⟨st.nextId, objVal⟩) := by
  constructor
  · refine ⟨applyUpdate objVal st, ?_, ?_, rfl, rfl, rfl⟩
    · cases comm <;>
        simp [reassign, update_pane, run_next_tick, List.foldlM, pure, Except.pure,
          Bind.bind, Except.bind]
    · show (st.children.map _).map Node.id = st.children.map Node.id
      rw [List.map_map]
      apply List.map_congr_left
      intro n _
      by_cases h : n = st.history <;> simp [h]
  · refine ⟨⟨st.children.set i ⟨st.nextId, objVal⟩, ⟨st.nextId, objVal⟩,
      st.cleaned ++ [st.history.id], st.nextId + 1⟩, ?_, rfl, rfl, ?_, rfl⟩
    · cases comm <;>
        simp [reassign, update_pane, update_models_splice, run_next_tick, List.foldlM, hidx,
          pure, Except.pure, Bind.bind, Except.bind]
    · intro hmem h
      exact hfresh st.history hmem h.symm

/-- A one-child state used as a concrete binding instance. -/
def st0 : LinkState := ⟨[⟨1, 10⟩], ⟨1, 10⟩, [], 2⟩

/-- Witness for C2: both update modes evaluated on the one-child state. -/
theorem reassign_update_vs_replace_witness :
    (∃ st2, reassign true true false false false 99 st0 = .ok st2 ∧
       st2.children.map Node.id = st0.children.map Node.id ∧
       st2.history.id = st0.history.id ∧ st2.history.val = 99 ∧
       st2.cleaned = st0.cleaned) ∧
    (∃ st2, reassign false true false false false 99 st0 = .ok st2 ∧
       st2.cleaned = st0.cleaned ++ [st0.history.id] ∧
       st2.history = ⟨st0.nextId, 99⟩ ∧
       (st0.history ∈ st0.children → st2.history.id ≠ st0.history.id) ∧
       st2.children = st0.children.set 0 ⟨st0.nextId, 99⟩) :=
  reassign_update_vs_replace true 99 st0 0 (by decide) (by decide)

/-- C3 counterexample: for an in-place-updating pane with no live session
attached, an error raised by `_update` does *not* propagate to the caller
that reassigned the value — the watcher returns normally and the failing
computation is deferred to the next document tick. -/
theorem update_error_deferred_counterexample :
    (update_pane true false true false false 99 st0).raised = none ∧
    (update_pane true false true false false 99 st0).deferred = [.applyUpdate 99] ∧
    run_next_tick true (.applyUpdate 99) st0 = .error .renderError ∧
    reassign true false true false false 99 st0 = .error .renderError := by decide

/-- C3 (amended): errors raised in the eagerly executed part of the update
surface to the reassigning caller with the old model still in the tree: on
the replacement path (`_cleanup` or `_get_model` raising) in both session
modes, and on the in-place path when a live session is present.  When no
session is attached and the pane updates in place, the whole computation is
deferred to the next tick, so nothing is raised to the caller; in every
case the splice has not occurred and the children list is unchanged. -/
theorem update_error_propagation (comm updR clR getR : Bool) (objVal : Nat) (st : LinkState)
    (hmem : st.history ∈ st.children) :
    ((clR = true ∨ getR = true) →
       ∃ e, (update_pane false comm updR clR getR objVal st).raised = some e ∧
         (update_pane false comm updR clR getR objVal st).state.children = st.children ∧
         st.history ∈ (update_pane false comm updR clR getR objVal st).state.children ∧
         (update_pane false comm updR clR getR objVal st).deferred = []) ∧
    (updR = true →
       (update_pane true true updR clR getR objVal st).raised = some .renderError ∧
       (update_pane true true updR clR getR objVal st).state = st) ∧
    ((update_pane true false updR clR getR objVal st).raised = none ∧
     (update_pane true false updR clR getR objVal st).state = st ∧
     (update_pane true false updR clR getR objVal st).deferred = [.applyUpdate objVal]) := by
  refine ⟨?_, ?_, ?_⟩
  · intro h
    cases hcl : clR with
    | true =>
        refine ⟨.renderError, ?_, ?_, ?_, ?_⟩ <;> simp [update_pane, hmem]
    | false =>
        have hget : getR = true := by
          rcases h with h | h
          · rw [hcl] at h
            cases h
          · exact h
        subst hget
        refine ⟨.renderError, ?_, ?_, ?_, ?_⟩ <;> simp [update_pane, hmem]
  · intro h
    subst h
    exact ⟨rfl, rfl⟩
  · exact ⟨rfl, rfl, rfl⟩

/-- Witness for the amended C3: a `_get_model` failure during a replacement
update with a live session surfaces to the caller and leaves the child
list unchanged. -/
theorem update_error_propagation_witness :
    ∃ e, (update_pane false true true false true 99 st0).raised = some e ∧
      (update_pane false true true false true 99 st0).state.children = st0.children ∧
      st0.history ∈ (update_pane false true true false true 99 st0).state.children ∧
      (update_pane false true true false true 99 st0).deferred = [] :=
  (update_error_propagation true true false true 99 st0 (by decide)).1 (Or.inr rfl)

/-- C6 (code bug): `PaneBase._cleanup` is idempotent and clears the held
object on a final teardown, but `HoloViews._cleanup` first dereferences
`self.object` — after a first final teardown has set it to Python `None`,
a second final call raises `AttributeError` instead of being a no-op. -/
theorem double_final_cleanup_raises :
    (∀ st : PaneState, (PaneBase_cleanup st true).object = none ∧
       PaneBase_cleanup (PaneBase_cleanup st true) true = PaneBase_cleanup st true) ∧
    HoloViews_cleanup ⟨some 7, [3, 4]⟩ true = .ok ⟨none, []⟩ ∧
    HoloViews_cleanup ⟨none, []⟩ true =
      .error (.attributeError "NoneType object has no attribute traverse") := by
  exact ⟨fun st => ⟨rfl, rfl⟩, rfl, rfl⟩

/-- C7: synthesizing widgets for `[(color: [red,green,blue]),
(level: range 0-10, step 2, default 4)]` with no overrides yields exactly a
choice list over `[red,green,blue]` defaulting to `red`, then a continuous
slider with start 0, end 10, step 2, value 4; and in general a
fully-bounded continuous dimension without declared step and default gets
step 0.1 and the lower bound as its value. -/
theorem widgets_from_dimensions_synthesis :
    (widgets_from_dimensions [colorDim, levelDim] [] [] =
      .ok [{ wtype := .Select, name := "color",
             options := some (.list [.str "red", .str "green", .str "blue"]),
             value := some (.str "red") },
           { wtype := .FloatSlider, name := "level", start := some 0, stop := some 10,
             step := some 2, value := some (.num 4) }]) ∧
    (∀ (d : Dim) (lo hi : ℚ), d.values = [] → d.range = (some lo, some hi) →
       d.step = none → d.default = none →
       widgets_from_dimensions [d] [] [] =
         .ok [{ wtype := .FloatSlider, name := d.label, start := some lo, stop := some hi,
                step := some (mkRat 1 10), value := some (.num lo) }]) := by
  constructor
  · decide
  · intro d lo hi hvals hrange hstep hdefault
    have hne : ¬([d] = [frameDim] ∧ ([] : List (List DimVal)) = [[DimVal.num 0]]) := by
      rintro ⟨-, h⟩
      cases h
    rw [widgets_from_dimensions, if_neg hne]
    simp [widgetsLoop, overrideLookup, dimLookup, hvals, dimWidget, hrange, rangeWidget,
      hstep, hdefault, pyZipStar, Bind.bind, Except.bind]

/-- C8 (code bug): `widgets.append(widget)` sits at loop-body level, so a
dimension with no candidate values and no range appends the *previous*
dimension's widget a second time, and when it is the first dimension the
loop raises `UnboundLocalError` — instead of contributing no widget. -/
theorem unconstrained_dim_append_bug :
    widgets_from_dimensions [colorDim, phaseDim] [] [] =
      .ok [{ wtype := .Select, name := "color",
             options := some (.list [.str "red", .str "green", .str "blue"]),
             value := some (.str "red") },
           { wtype := .Select, name := "color",
             options := some (.list [.str "red", .str "green", .str "blue"]),
             value := some (.str "red") }] ∧
    widgets_from_dimensions [phaseDim] [] [] =
      .error (.unboundLocalError "local variable widget referenced before assignment") := by
  decide

/-- C10: `PNG._imgshape` reads the 4-byte big-endian width and height at
byte offsets 16-24, `GIF._imgshape` the 2-byte little-endian width and
height at offset 6, and `JPG._imgshape` scans marker segments to the first
SOF marker and reads its height/width (evaluated on a fixture declaring
height 50, width 100). -/
theorem imgshape_reads_header :
    (∀ (pre mid : List Nat) (w1 w2 w3 w4 h1 h2 h3 h4 : Nat), pre.length = 16 →
       png_imgshape (pre ++ w1 :: w2 :: w3 :: w4 :: h1 :: h2 :: h3 :: h4 :: mid) =
         .ok (((w1 * 256 + w2) * 256 + w3) * 256 + w4,
              ((h1 * 256 + h2) * 256 + h3) * 256 + h4)) ∧
    (∀ (pre mid : List Nat) (w1 w2 h1 h2 : Nat), pre.length = 6 →
       gif_imgshape (pre ++ w1 :: w2 :: h1 :: h2 :: mid) =
         .ok (w1 + w2 * 256, h1 + h2 * 256)) ∧
    jpg_imgshape jpgFixture = .ok (100, 50) := by
  refine ⟨?_, ?_, by decide⟩
  · intro pre mid w1 w2 w3 w4 h1 h2 h3 h4 hlen
    simp only [png_imgshape]
    rw [← hlen, List.drop_left]
    rfl
  · intro pre mid w1 w2 h1 h2 hlen
    simp only [gif_imgshape]
    rw [← hlen, List.drop_left]
    rfl

/-- Witness for C10: PNG and GIF fixtures with width 100 and height 50
encoded at the documented offsets. -/
theorem imgshape_reads_header_witness :
    png_imgshape (List.replicate 16 0 ++ [0, 0, 0, 100, 0, 0, 0, 50]) = .ok (100, 50) ∧
    gif_imgshape (List.replicate 6 0 ++ [100, 0, 50, 0]) = .ok (100, 50) := by
  constructor
  · have h := imgshape_reads_header.1 (List.replicate 16 0) [] 0 0 0 100 0 0 0 50 (by decide)
    simpa using h
  · have h := imgshape_reads_header.2.1 (List.replicate 6 0) [] 100 0 50 0 (by decide)
    simpa using h

/-- A continuous dimension with a fully bounded range and no declared step
or default. -/
def plainRangeDim : Dim := { name := "level", label := "level", range := (some 0, some 10) }

/-- Witness for C7: with step and default undeclared, the slider falls back
to step 0.1 and to the lower bound as its value. -/
theorem widgets_from_dimensions_synthesis_witness :
    widgets_from_dimensions [plainRangeDim] [] [] =
      .ok [{ wtype := .FloatSlider, name := "level", start := some 0, stop := some 10,
             step := some (mkRat 1 10), value := some (.num 0) }] :=
  widgets_from_dimensions_synthesis.2 plainRangeDim 0 10 rfl rfl rfl rfl
